import Mathlib

/-!
# Verification of the GoCD MCP client core

A shallow embedding of the response-normalization and JUnit-parsing core of
the `gocd-mcp` gateway (TypeScript), together with proofs of the specified
properties.

The embedding mirrors, definition by definition:

* `src/client/gocd-client.ts` — the `request` classification helper,
  `listPipelines` dashboard normalization, `pausePipeline` body
  construction, and `parseJUnitXml`;
* `src/utils/responses.ts` — `GocdApiError` and `formatErrorResponse`;
* `src/tools/jobs.ts` — the `analyze_job_failures` aggregator.

JavaScript numbers are modelled as exact rationals extended with a `NaN`
element (`JsNum`); IEEE-754 rounding is outside the scope of this
development.  JavaScript string truthiness (`""` is falsy) and the
`x || d` defaulting idiom are modelled explicitly (`jsOr`, `jsTruthyStr`).
Parsed XML comes from `fast-xml-parser` with `attributeNamePrefix "@_"`:
an element's attribute is an optional string, and a child element is
either a bare string (text-only or empty element) or a node carrying
`@_message` / `@_type` attributes and a `#text` body (`ChildVal`).
-/

namespace GocdMcp

/-- JavaScript strings are falsy exactly when empty; `jsOr v d` models the
idiom `v || d` applied to an optional string value. -/
def jsOr (v : Option String) (d : String) : String :=
  match v with
  | none => d
  | some s => if s = "" then d else s

/-- Truthiness of a JavaScript value that is either `undefined` or a
string: `undefined` and `""` are falsy. -/
def jsTruthyStr (v : Option String) : Bool :=
  match v with
  | none => false
  | some s => s != ""

/-- A JavaScript number: either `NaN` or an exact rational value carried
as an unreduced numerator/denominator pair (`den` is positive for every
value this development constructs: integers have `den = 1`, decimal
literals a power of ten).  All equalities proved below are
representation-level and therefore imply value equality; IEEE-754
rounding is outside the scope of this development. -/
inductive JsNum where
  | nan : JsNum
  | num : Int → Nat → JsNum
deriving DecidableEq, Repr

/-- JavaScript `+` on numbers: `NaN` is absorbing; fractions add by
cross-multiplication. -/
def jadd : JsNum → JsNum → JsNum
  | .nan, _ => .nan
  | _, .nan => .nan
  | .num an ad, .num bn bd => .num (an * bd + bn * ad) (ad * bd)

theorem jadd_comm (a b : JsNum) : jadd a b = jadd b a := by
  cases a <;> cases b <;> simp [jadd]
  constructor
  · ring
  · exact Nat.mul_comm ..

theorem jadd_assoc (a b c : JsNum) : jadd (jadd a b) c = jadd a (jadd b c) := by
  cases a <;> cases b <;> cases c <;> simp [jadd]
  constructor
  · ring
  · exact Nat.mul_assoc ..

instance : RightCommutative jadd :=
  ⟨fun b x y => by rw [jadd_assoc, jadd_comm x y, ← jadd_assoc]⟩

/-- Sum of a list of JavaScript numbers, folded from the left starting at
`0` — the shape of the `total… += …` accumulation in `parseJUnitXml`. -/
def jsum (l : List JsNum) : JsNum := l.foldl jadd (.num 0 1)

/-- Whitespace skipped by the JavaScript numeric parsers. -/
def isWs (c : Char) : Bool :=
  c = ' ' || c = '\t' || c = '\n' || c = '\r' || c = '\x0b' || c = '\x0c'

def digitVal (c : Char) : Nat := c.toNat - '0'.toNat

def digitsToNat (ds : List Char) : Nat :=
  ds.foldl (fun a c => 10 * a + digitVal c) 0

/-- Longest digit prefix, as a value; `NaN` when there is none —
the core of JavaScript `parseInt(s, 10)` after sign handling. -/
def parseIntCore (cs : List Char) : JsNum :=
  let ds := cs.takeWhile (·.isDigit)
  if ds.isEmpty then .nan else .num (digitsToNat ds) 1

/-- JavaScript `parseInt(s, 10)`: skip leading whitespace, optional sign,
then the longest digit prefix; `NaN` when no digit is found.  Never
throws — unparseable input is the `NaN` value, not an exception. -/
def parseIntJs (s : String) : JsNum :=
  let cs := s.data.dropWhile isWs
  match cs with
  | '-' :: rest =>
    match parseIntCore rest with
    | .nan => .nan
    | .num q d => .num (-q) d
  | '+' :: rest => parseIntCore rest
  | _ => parseIntCore cs

def pow10 (n : Nat) : Nat := 10 ^ n

/-- Decimal mantissa: digits with an optional fractional part.  Returns the
value (numerator and denominator) and the unconsumed rest, or `none` when
no digit is present. -/
def parseDecCore (cs : List Char) : Option ((Int × Nat) × List Char) :=
  let intds := cs.takeWhile (·.isDigit)
  let rest1 := cs.drop intds.length
  match rest1 with
  | '.' :: r2 =>
    let fracds := r2.takeWhile (·.isDigit)
    if intds.isEmpty && fracds.isEmpty then none
    else some (((digitsToNat intds * pow10 fracds.length + digitsToNat fracds : Nat),
                pow10 fracds.length),
               r2.drop fracds.length)
  | _ => if intds.isEmpty then none else some (((digitsToNat intds : Nat), 1), rest1)

/-- Optional exponent part following the mantissa (`e`/`E`, optional sign,
digits), as a numerator/denominator scale; an incomplete exponent is
ignored — JavaScript `parseFloat` takes the longest valid prefix. -/
def parseExpFactor (cs : List Char) : Nat × Nat :=
  match cs with
  | 'e' :: rest | 'E' :: rest =>
    (match rest with
     | '-' :: r2 =>
       let ds := r2.takeWhile (·.isDigit)
       if ds.isEmpty then (1, 1) else (1, pow10 (digitsToNat ds))
     | '+' :: r2 =>
       let ds := r2.takeWhile (·.isDigit)
       if ds.isEmpty then (1, 1) else (pow10 (digitsToNat ds), 1)
     | r2 =>
       let ds := r2.takeWhile (·.isDigit)
       if ds.isEmpty then (1, 1) else (pow10 (digitsToNat ds), 1))
  | _ => (1, 1)

/-- JavaScript `parseFloat(s)` over decimal literals: sign, digits with an
optional fraction, optional exponent; longest valid prefix; `NaN` when no
digit is found.  Total — never throws. -/
def parseFloatJs (s : String) : JsNum :=
  let cs := s.data.dropWhile isWs
  match cs with
  | '-' :: r =>
    (match parseDecCore r with
     | none => .nan
     | some ((mn, md), rest) =>
       let ef := parseExpFactor rest
       .num (-(mn * ef.1)) (md * ef.2))
  | '+' :: r =>
    (match parseDecCore r with
     | none => .nan
     | some ((mn, md), rest) =>
       let ef := parseExpFactor rest
       .num (mn * ef.1) (md * ef.2))
  | _ =>
    match parseDecCore cs with
    | none => .nan
    | some ((mn, md), rest) =>
      let ef := parseExpFactor rest
      .num (mn * ef.1) (md * ef.2)

/-! ## Parsed JUnit XML documents

`fast-xml-parser` (with `ignoreAttributes: false`, `attributeNamePrefix
"@_"`) turns a `failure`/`error`/`skipped` child element into either a bare
string (text-only content; an empty element such as `<failure/>` becomes
the empty string `""`) or an object carrying `@_…` attributes and a
`#text` body.  `ChildVal` is that value; attributes of `testsuite` and
`testcase` elements are optional strings. -/

/-- A parsed child element of a test case (`failure`, `error`, `skipped`):
either a bare string or a node with `@_message`/`@_type` attributes and a
`#text` body. -/
inductive ChildVal where
  | text : String → ChildVal
  | node : (message ty innerText : Option String) → ChildVal
deriving DecidableEq, Repr

/-- JavaScript truthiness of `testcase.failure` / `testcase.error`:
absent and the empty string are falsy; any object is truthy. -/
def jsTruthyChild (v : Option ChildVal) : Bool :=
  match v with
  | none => false
  | some (.text s) => s != ""
  | some (.node _ _ _) => true

/-- Models `x["@_message"] || ""`: indexing a bare string by an attribute name
yields `undefined` in JavaScript, hence `""` after defaulting. -/
def childMessage : ChildVal → String
  | .text _ => ""
  | .node m _ _ => jsOr m ""

/-- Models `x["@_type"] || ""` with the same string-indexing convention. -/
def childType : ChildVal → String
  | .text _ => ""
  | .node _ t _ => jsOr t ""

/-- Models `isString(x) ? x : x["#text"] || ""` — the content body. -/
def childContent : ChildVal → String
  | .text s => s
  | .node _ _ tx => jsOr tx ""

/-- Models `isString(x) ? x : x["@_message"] || ""` — the skip message. -/
def skippedMessage : ChildVal → String
  | .text s => s
  | .node m _ _ => jsOr m ""

/-- A parsed `testcase` element: `@_`-prefixed attributes and the three
optional child elements. -/
structure TestcaseNode where
  name : Option String
  classname : Option String
  time : Option String
  failure : Option ChildVal
  error : Option ChildVal
  skipped : Option ChildVal
deriving DecidableEq, Repr

/-- A parsed `testsuite` element: `@_`-prefixed attributes and its
`testcase` children (`castArray` has already normalized absent / single /
array to a list). -/
structure SuiteNode where
  name : Option String
  tests : Option String
  failures : Option String
  errors : Option String
  skipped : Option String
  time : Option String
  timestamp : Option String
  testcase : List TestcaseNode
deriving DecidableEq, Repr

/-! ## Normalized JUnit result aggregate (`src/client/types.ts`) -/

inductive TestStatus where
  | passed | failed | error | skipped
deriving DecidableEq, Repr

/-- The `JUnitFailure` / `JUnitError` payload: `{message, type, content}`. -/
structure JUnitFailure where
  message : String
  type : String
  content : String
deriving DecidableEq, Repr

structure JUnitTestCase where
  name : String
  classname : String
  time : JsNum
  status : TestStatus
  failure : Option JUnitFailure
  error : Option JUnitFailure
  skipped : Option String
deriving DecidableEq, Repr

/-- An entry of the flattened `failedTests` list. -/
structure FailedTestEntry where
  suiteName : String
  testName : String
  className : String
  message : String
  type : String
  details : String
deriving DecidableEq, Repr

structure JUnitTestSuite where
  name : String
  tests : JsNum
  failures : JsNum
  errors : JsNum
  skipped : JsNum
  time : JsNum
  timestamp : Option String
  testCases : List JUnitTestCase
deriving DecidableEq, Repr

structure TestSummary where
  totalTests : JsNum
  totalFailures : JsNum
  totalErrors : JsNum
  totalSkipped : JsNum
  totalTime : JsNum
deriving DecidableEq, Repr

structure JUnitTestResults where
  suites : List JUnitTestSuite
  summary : TestSummary
  failedTests : List FailedTestEntry
deriving DecidableEq, Repr

/-! ## The parser (`gocd-client.ts`, `parseJUnitXml`, lines 744–842) -/

/-- Body of the per-`testcase` loop: the produced `JUnitTestCase` together
with the entries pushed onto `failedTests` while processing it (a
singleton for a failed/errored case, else empty).  Mirrors the
`if (testcase.failure) … else if (testcase.error) … else if
(testcase.skipped !== undefined) …` chain. -/
def parseTestCase (suiteName : String) (tc : TestcaseNode) :
    JUnitTestCase × List FailedTestEntry :=
  let testName := jsOr tc.name "Unknown Test"
  let className := jsOr tc.classname ""
  let testTime := parseFloatJs (jsOr tc.time "0")
  if jsTruthyChild tc.failure then
    let f := tc.failure.getD (.text "")
    let fl : JUnitFailure := ⟨childMessage f, childType f, childContent f⟩
    (⟨testName, className, testTime, .failed, some fl, none, none⟩,
     [⟨suiteName, testName, className, fl.message, fl.type, fl.content⟩])
  else if jsTruthyChild tc.error then
    let e := tc.error.getD (.text "")
    let el : JUnitFailure := ⟨childMessage e, childType e, childContent e⟩
    (⟨testName, className, testTime, .error, none, some el, none⟩,
     [⟨suiteName, testName, className, el.message, el.type, el.content⟩])
  else
    match tc.skipped with
    | some sk =>
      (⟨testName, className, testTime, .skipped, none, none, some (skippedMessage sk)⟩, [])
    | none =>
      (⟨testName, className, testTime, .passed, none, none, none⟩, [])

/-- Body of the per-`testsuite` loop: attribute parsing with `|| "0"`
defaulting, the processed cases, and the `failedTests` entries contributed
by this suite, in case order. -/
def parseSuite (s : SuiteNode) : JUnitTestSuite × List FailedTestEntry :=
  let suiteName := jsOr s.name "Unknown Suite"
  let tests := parseIntJs (jsOr s.tests "0")
  let failures := parseIntJs (jsOr s.failures "0")
  let errors := parseIntJs (jsOr s.errors "0")
  let skipped := parseIntJs (jsOr s.skipped "0")
  let time := parseFloatJs (jsOr s.time "0")
  let processed := s.testcase.map (parseTestCase suiteName)
  (⟨suiteName, tests, failures, errors, skipped, time, s.timestamp,
    processed.map Prod.fst⟩,
   (processed.map Prod.snd).flatten)

/-- The mutable accumulators of `parseJUnitXml`'s suite loop. -/
structure ParseAcc where
  suites : List JUnitTestSuite
  failedTests : List FailedTestEntry
  totalTests : JsNum
  totalFailures : JsNum
  totalErrors : JsNum
  totalSkipped : JsNum
  totalTime : JsNum
deriving DecidableEq, Repr

/-- One iteration of the suite loop: push the suite, append its failed
entries, and `+=` its counts into the running totals. -/
def stepSuite (acc : ParseAcc) (s : SuiteNode) : ParseAcc :=
  let ps := parseSuite s
  ⟨acc.suites ++ [ps.1], acc.failedTests ++ ps.2,
   jadd acc.totalTests ps.1.tests, jadd acc.totalFailures ps.1.failures,
   jadd acc.totalErrors ps.1.errors, jadd acc.totalSkipped ps.1.skipped,
   jadd acc.totalTime ps.1.time⟩

/-- The function `parseJUnitXml` after the envelope normalization of lines 737–742: the
input is the ordered list of `testsuite` nodes, the output the full
`{suites, summary, failedTests}` aggregate.  Total — parsing never
throws. -/
def parseJUnitXml (ts : List SuiteNode) : JUnitTestResults :=
  let acc := ts.foldl stepSuite ⟨[], [], .num 0 1, .num 0 1, .num 0 1, .num 0 1, .num 0 1⟩
  ⟨acc.suites,
   ⟨acc.totalTests, acc.totalFailures, acc.totalErrors, acc.totalSkipped, acc.totalTime⟩,
   acc.failedTests⟩

/-- The status-priority chain of lines 774–812, as a standalone function of
the test case node (used to state the specification's claims). -/
def statusOf (tc : TestcaseNode) : TestStatus :=
  if jsTruthyChild tc.failure then .failed
  else if jsTruthyChild tc.error then .error
  else if tc.skipped.isSome then .skipped
  else .passed

/-- The `failedTests` entry contributed by a failed/errored case, as a
function of the source node (specification-side description). -/
def caseEntry (suiteName : String) (tc : TestcaseNode) : FailedTestEntry :=
  let testName := jsOr tc.name "Unknown Test"
  let className := jsOr tc.classname ""
  if jsTruthyChild tc.failure then
    let f := tc.failure.getD (.text "")
    ⟨suiteName, testName, className, childMessage f, childType f, childContent f⟩
  else
    let e := tc.error.getD (.text "")
    ⟨suiteName, testName, className, childMessage e, childType e, childContent e⟩

/-! ## Dashboard normalization (`gocd-client.ts`, `listPipelines`,
lines 505–544, over the types of `src/client/types.ts`) -/

/-- Upstream `pause_info` object: `{paused, paused_by, pause_reason}`. -/
structure PauseInfoSrc where
  paused : Bool
  paused_by : Option String
  pause_reason : Option String
deriving DecidableEq, Repr

/-- Upstream `DashboardPipeline`: `{name, locked, pause_info?}`. -/
structure DashboardPipeline where
  name : String
  locked : Bool
  pause_info : Option PauseInfoSrc
deriving DecidableEq, Repr

/-- A group's `pipelines` value: `string[] | DashboardPipeline[]`
(homogeneous, per the declared upstream type; the code dispatches on the
first element only). -/
inductive PipelinesField where
  | strs : List String → PipelinesField
  | objs : List DashboardPipeline → PipelinesField
deriving DecidableEq, Repr

/-- Upstream `PipelineGroup`: `{name, pipelines?, _embedded?.pipelines}`. -/
structure PipelineGroup where
  name : String
  embeddedPipelines : Option (List DashboardPipeline)
  pipelines : Option PipelinesField
deriving DecidableEq, Repr

/-- Upstream `DashboardResponse`: groups either under
`_embedded.pipeline_groups` or as a top-level `pipeline_groups` field. -/
structure DashboardResponse where
  embedded_pipeline_groups : Option (List PipelineGroup)
  pipeline_groups : Option (List PipelineGroup)
deriving DecidableEq, Repr

/-- Canonical output `PauseInfo` (camelCase). -/
structure PauseInfo where
  paused : Bool
  pausedBy : Option String
  pauseReason : Option String
deriving DecidableEq, Repr

/-- Canonical output `Pipeline`. -/
structure Pipeline where
  name : String
  group : String
  locked : Bool
  pauseInfo : Option PauseInfo
deriving DecidableEq, Repr

/-- The bare-name-string branch: `{name, group, locked: false,
pauseInfo: null}`. -/
def strPipeline (groupName : String) (name : String) : Pipeline :=
  ⟨name, groupName, false, none⟩

/-- The object branch: field-for-field mapping with snake_case→camelCase
translation; `p.pause_info ? {…} : null` (an object is always truthy). -/
def objPipeline (groupName : String) (p : DashboardPipeline) : Pipeline :=
  ⟨p.name, groupName, p.locked,
   match p.pause_info with
   | some pi => some ⟨pi.paused, pi.paused_by, pi.pause_reason⟩
   | none => none⟩

/-- Models `group._embedded?.pipelines || group.pipelines` — an embedded array is
truthy even when empty. -/
def effPipelines (g : PipelineGroup) : Option PipelinesField :=
  match g.embeddedPipelines with
  | some ps => some (.objs ps)
  | none => g.pipelines

def pipelinesLen : PipelinesField → Nat
  | .strs l => l.length
  | .objs l => l.length

/-- The per-group body of the `flatMap`: `isEmpty(pipelines)` yields no
contribution; otherwise dispatch on `isString(pipelines[0])`. -/
def groupPipelines (g : PipelineGroup) : List Pipeline :=
  match effPipelines g with
  | none => []
  | some pf =>
    if pipelinesLen pf = 0 then []
    else
      match pf with
      | .strs names => names.map (strPipeline g.name)
      | .objs ps => ps.map (objPipeline g.name)

/-- Models `data._embedded?.pipeline_groups || data.pipeline_groups`. -/
def dashGroups (d : DashboardResponse) : Option (List PipelineGroup) :=
  match d.embedded_pipeline_groups with
  | some gs => some gs
  | none => d.pipeline_groups

/-- The function `listPipelines`, given the parsed dashboard payload: the missing-groups
check followed by the `flatMap` over groups. -/
def listPipelines (d : DashboardResponse) : Except String (List Pipeline) :=
  match dashGroups d with
  | none => .error "Invalid dashboard response: missing pipeline_groups field"
  | some gs => .ok (gs.map groupPipelines).flatten

/-! ## HTTP request wrapper (`gocd-client.ts`, `request`, lines 417–503) -/

/-- Substring test on character lists (JavaScript `String.includes`). -/
def isPrefixOfL : List Char → List Char → Bool
  | [], _ => true
  | _ :: _, [] => false
  | a :: as, b :: bs => a == b && isPrefixOfL as bs

def containsSub (pat : List Char) : List Char → Bool
  | [] => pat.isEmpty
  | c :: rest => isPrefixOfL pat (c :: rest) || containsSub pat rest

/-- Models `s.includes(pat)` for JavaScript strings. -/
def jsIncludes (s pat : String) : Bool := containsSub pat.data s.data

/-- Models `path.includes("/cancel") || path.includes("/unpause") ||
path.includes("/pause")` — the condition, on the original (un-normalized)
path, under which `X-GoCD-Confirm: true` is attached (lines 431–433). -/
def needsConfirmHeader (path : String) : Bool :=
  jsIncludes path "/cancel" || jsIncludes path "/unpause" || jsIncludes path "/pause"

/-- The outgoing request headers of lines 426–433. -/
def requestHeaders (token path apiVersion : String) : List (String × String) :=
  let base := [("Accept", "application/vnd.go.cd." ++ apiVersion ++ "+json"),
               ("Authorization", "Bearer " ++ token)]
  if needsConfirmHeader path then base ++ [("X-GoCD-Confirm", "true")] else base

/-- Characters `encodeURIComponent` leaves unescaped:
`A–Z a–z 0–9 - _ . ! ~ * ' ( )`. -/
def isUnreservedURI (c : Char) : Bool :=
  c.isAlpha || c.isDigit || c = '-' || c = '_' || c = '.' || c = '!' ||
  c = '~' || c = '*' || c.toNat = 39 || c = '(' || c = ')'

/-- UTF-8 bytes of a code point, as naturals. -/
def utf8Bytes (n : Nat) : List Nat :=
  if n < 0x80 then [n]
  else if n < 0x800 then [0xC0 + n / 64, 0x80 + n % 64]
  else if n < 0x10000 then [0xE0 + n / 4096, 0x80 + (n / 64) % 64, 0x80 + n % 64]
  else [0xF0 + n / 262144, 0x80 + (n / 4096) % 64, 0x80 + (n / 64) % 64, 0x80 + n % 64]

def hexDigit (n : Nat) : Char :=
  if n < 10 then Char.ofNat ('0'.toNat + n) else Char.ofNat ('A'.toNat + n - 10)

def percentByte (b : Nat) : String :=
  "%" ++ String.mk [hexDigit (b / 16), hexDigit (b % 16)]

/-- JavaScript `encodeURIComponent`. -/
def encodeURIComponent (s : String) : String :=
  String.join (s.data.map fun c =>
    if isUnreservedURI c then String.mk [c]
    else String.join ((utf8Bytes c.toNat).map percentByte))

/-- Models `path.startsWith("/") ? path.substring(1) : path` (line 424). -/
def normalizePath (path : String) : String :=
  match path.data with
  | '/' :: rest => String.mk rest
  | _ => path

/-- The `GocdApiError` class (`src/utils/responses.ts`): `{statusCode, statusText,
endpoint, responseBody?}`. -/
structure GocdApiError where
  statusCode : Nat
  statusText : String
  endpoint : String
  responseBody : Option String
deriving DecidableEq, Repr

/-- The `Error.message` set by the `GocdApiError` constructor. -/
def gocdErrorMessage (e : GocdApiError) : String :=
  "GoCD API Error (" ++ toString e.statusCode ++ "): " ++ e.statusText ++
  " at " ++ e.endpoint

/-- An upstream response body as seen by the classification code. -/
inductive BodyVal where
  | vnull : BodyVal
  | vstr : String → BodyVal
  | vobj : List (String × String) → BodyVal
deriving DecidableEq, Repr

/-- lodash `isEmpty` on the body: `null`/`undefined`, the empty string and
the empty object are empty. -/
def isEmptyBody : BodyVal → Bool
  | .vnull => true
  | .vstr s => s.length = 0
  | .vobj fs => fs.isEmpty

def jsonStringifyObj (fs : List (String × String)) : String :=
  "\x7b" ++ String.intercalate ","
    (fs.map fun kv => "\"" ++ kv.1 ++ "\":\"" ++ kv.2 ++ "\"") ++ "\x7d"

/-- Models `isString(body) ? body : JSON.stringify(body)` (line 457). -/
def bodyToString : BodyVal → String
  | .vstr s => s
  | .vnull => "null"
  | .vobj fs => jsonStringifyObj fs

/-- The upstream HTTP response consumed by the classification logic. -/
structure HttpResponse where
  statusCode : Nat
  statusMessage : Option String
  body : BodyVal
deriving DecidableEq, Repr

/-- A successful outcome of `request`. -/
inductive RequestOutcome where
  | success : RequestOutcome
  | payload : BodyVal → RequestOutcome
deriving DecidableEq, Repr

/-- Response classification of `request` (lines 444–469): status ≥ 400
raises `GocdApiError`; 202/204 and empty bodies synthesize
`{success: true}`; otherwise the body is returned. -/
def requestClassify (path : String) (resp : HttpResponse) :
    Except GocdApiError RequestOutcome :=
  if resp.statusCode ≥ 400 then
    .error ⟨resp.statusCode, jsOr resp.statusMessage "Unknown error",
            normalizePath path, some (bodyToString resp.body)⟩
  else if resp.statusCode = 202 || resp.statusCode = 204 then .ok .success
  else if isEmptyBody resp.body then .ok .success
  else .ok (.payload resp.body)

/-- The uniform error envelope produced at the tool boundary
(`formatErrorResponse` serializes it to JSON). -/
structure ErrorEnvelope where
  error : Bool
  code : String
  message : String
  statusCode : Option Nat
deriving DecidableEq, Repr

/-- The kinds of thrown value `formatErrorResponse` distinguishes. -/
inductive ThrownError where
  | gocd : GocdApiError → ThrownError
  | jsError : String → ThrownError
  | other : String → ThrownError
deriving DecidableEq, Repr

/-- The function `formatErrorResponse` (`src/utils/responses.ts`, lines 41–85):
status-specific codes for `GocdApiError`, `ERROR` for other `Error`s,
`UNKNOWN_ERROR` for anything else. -/
def formatErrorResponse : ThrownError → ErrorEnvelope
  | .gocd e =>
    if e.statusCode = 401 then
      ⟨true, "UNAUTHORIZED", "Authentication failed. Check GOCD_API_TOKEN.", none⟩
    else if e.statusCode = 403 then
      ⟨true, "FORBIDDEN", "Permission denied for " ++ e.endpoint, none⟩
    else if e.statusCode = 404 then
      ⟨true, "NOT_FOUND", "Resource not found: " ++ e.endpoint, none⟩
    else ⟨true, "API_ERROR", gocdErrorMessage e, some e.statusCode⟩
  | .jsError m => ⟨true, "ERROR", m, none⟩
  | .other s => ⟨true, "UNKNOWN_ERROR", s, none⟩

/-! ## Endpoint constructors -/

/-- The path of `getPipelineStatus(name)` (line 547). -/
def getPipelineStatusPath (name : String) : String :=
  "/pipelines/" ++ encodeURIComponent name ++ "/status"

/-- An outgoing request as assembled by a client method. -/
structure RequestSpec where
  method : String
  path : String
  apiVersion : String
  body : Option (List (String × String))
deriving DecidableEq, Repr

/-- The method `getPipelineStatus` issues a GET with no body (lines 546–549). -/
def getPipelineStatusRequest (name : String) : RequestSpec :=
  ⟨"GET", getPipelineStatusPath name, "v1", none⟩

/-- The method `pausePipeline` (lines 580–584): `const body = reason ?
{pause_cause: reason} : undefined` — the body exists only for a truthy
(non-empty) reason string. -/
def pausePipelineRequest (name : String) (reason : Option String) : RequestSpec :=
  ⟨"POST", "/pipelines/" ++ encodeURIComponent name ++ "/pause", "v1",
   if jsTruthyStr reason then some [("pause_cause", reason.getD "")] else none⟩

/-! ## Failure-analysis aggregator (`src/tools/jobs.ts`,
`analyze_job_failures`, lines 221–288) -/

/-- The fixed, ordered list of conventional JUnit report path patterns. -/
def junitPatterns : List String :=
  ["test-results/junit.xml",
   "test-results/TEST-*.xml",
   "target/surefire-reports/TEST-*.xml",
   "build/test-results/**/*.xml",
   "reports/junit.xml",
   "reports/TEST-*.xml"]

/-- The pattern loop: each failed attempt is swallowed (`catch { continue }`)
and the next pattern tried; the first parsed result wins. -/
def firstSuccess : List (Except String JUnitTestResults) → Option JUnitTestResults
  | [] => none
  | .error _ :: rest => firstSuccess rest
  | .ok r :: _ => some r

/-- The result object assembled by the `analyze_job_failures` handler. -/
structure FailureAnalysis where
  testFailures : Option JUnitTestResults
  consoleErrors : Option String
  summary : String
deriving Repr

/-- The `analyze_job_failures` handler body, with the two fallible lookups
(artifact fetch + parse per pattern, console-log fetch) supplied as
oracles.  The console fetch is attempted independently of the pattern
loop; its failure is swallowed too.  The summary mirrors the three `if`s
on lines 273–283, where `consoleErrors` is tested by string truthiness. -/
def analyzeJobFailures (fetchJUnit : String → Except String JUnitTestResults)
    (consoleFetch : Except String String) : FailureAnalysis :=
  let tf := firstSuccess (junitPatterns.map fetchJUnit)
  let ce := match consoleFetch with
            | .ok s => some s
            | .error _ => none
  let s1 := if tf.isSome then "Found test failures in JUnit XML reports." else ""
  let s2 := if jsTruthyStr ce then s1 ++ "Console log available for error analysis." else s1
  if tf.isNone && !(jsTruthyStr ce) then
    ⟨tf, ce, "No test reports or logs found. Job may be running or no artifacts published."⟩
  else ⟨tf, ce, s2⟩

/-! ## Structural lemmas about the parser -/

theorem foldl_stepSuite (ts : List SuiteNode) (acc : ParseAcc) :
    ts.foldl stepSuite acc =
      ⟨acc.suites ++ ts.map (fun s => (parseSuite s).1),
       acc.failedTests ++ (ts.map (fun s => (parseSuite s).2)).flatten,
       List.foldl (fun a s => jadd a (parseSuite s).1.tests) acc.totalTests ts,
       List.foldl (fun a s => jadd a (parseSuite s).1.failures) acc.totalFailures ts,
       List.foldl (fun a s => jadd a (parseSuite s).1.errors) acc.totalErrors ts,
       List.foldl (fun a s => jadd a (parseSuite s).1.skipped) acc.totalSkipped ts,
       List.foldl (fun a s => jadd a (parseSuite s).1.time) acc.totalTime ts⟩ := by
  induction ts generalizing acc with
  | nil => simp
  | cons s rest ih => simp [ih, stepSuite]

theorem parseJUnitXml_suites (ts : List SuiteNode) :
    (parseJUnitXml ts).suites = ts.map (fun s => (parseSuite s).1) := by
  simp [parseJUnitXml, foldl_stepSuite]

theorem parseJUnitXml_failedTests (ts : List SuiteNode) :
    (parseJUnitXml ts).failedTests = (ts.map (fun s => (parseSuite s).2)).flatten := by
  simp [parseJUnitXml, foldl_stepSuite]

theorem parseJUnitXml_summary (ts : List SuiteNode) :
    (parseJUnitXml ts).summary =
      ⟨List.foldl (fun a s => jadd a (parseSuite s).1.tests) (.num 0 1) ts,
       List.foldl (fun a s => jadd a (parseSuite s).1.failures) (.num 0 1) ts,
       List.foldl (fun a s => jadd a (parseSuite s).1.errors) (.num 0 1) ts,
       List.foldl (fun a s => jadd a (parseSuite s).1.skipped) (.num 0 1) ts,
       List.foldl (fun a s => jadd a (parseSuite s).1.time) (.num 0 1) ts⟩ := by
  simp [parseJUnitXml, foldl_stepSuite]

theorem foldl_jadd_fuse (g : SuiteNode → JsNum) (b : JsNum) (ts : List SuiteNode) :
    List.foldl (fun a s => jadd a (g s)) b ts = List.foldl jadd b (ts.map g) := by
  rw [List.foldl_map]

theorem foldl_jadd_perm (g : SuiteNode → JsNum) (b : JsNum) {ts ts' : List SuiteNode}
    (h : ts.Perm ts') :
    List.foldl (fun a s => jadd a (g s)) b ts =
      List.foldl (fun a s => jadd a (g s)) b ts' := by
  rw [foldl_jadd_fuse, foldl_jadd_fuse]
  exact (h.map g).foldl_eq b

/-- The per-case contribution to `failedTests` is a singleton exactly for
failed/errored cases. -/
def isFailedOrError (tc : TestcaseNode) : Bool :=
  statusOf tc == .failed || statusOf tc == .error

theorem parseTestCase_status (sn : String) (tc : TestcaseNode) :
    (parseTestCase sn tc).1.status = statusOf tc := by
  unfold parseTestCase statusOf
  by_cases h1 : jsTruthyChild tc.failure
  · simp [h1]
  · by_cases h2 : jsTruthyChild tc.error
    · simp [h1, h2]
    · cases h3 : tc.skipped <;> simp [h1, h2, h3]

theorem parseTestCase_snd (sn : String) (tc : TestcaseNode) :
    (parseTestCase sn tc).2 =
      if isFailedOrError tc then [caseEntry sn tc] else [] := by
  unfold parseTestCase caseEntry isFailedOrError statusOf
  by_cases h1 : jsTruthyChild tc.failure
  · simp [h1]
  · by_cases h2 : jsTruthyChild tc.error
    · simp [h1, h2]
    · cases h3 : tc.skipped <;> simp [h1, h2, h3]

theorem flatten_map_if {α β : Type} (p : α → Bool) (f : α → β) (l : List α) :
    (l.map (fun x => if p x then [f x] else [])).flatten = (l.filter p).map f := by
  induction l with
  | nil => rfl
  | cons a l ih =>
    by_cases h : p a <;> simp [h, ih, List.filter_cons]

theorem parseSuite_snd (s : SuiteNode) :
    (parseSuite s).2 =
      (s.testcase.filter isFailedOrError).map (caseEntry (jsOr s.name "Unknown Suite")) := by
  have h : (parseSuite s).2 =
      (s.testcase.map fun tc =>
        (parseTestCase (jsOr s.name "Unknown Suite") tc).2).flatten := by
    simp [parseSuite, Function.comp_def]
  rw [h, ← flatten_map_if isFailedOrError (caseEntry (jsOr s.name "Unknown Suite"))]
  congr 1
  exact List.map_congr_left fun tc _ => parseTestCase_snd _ tc

/-! ## Claim theorems -/

/-- C1 (amended): for every test case node in a parsed JUnit document,
`parseJUnitXml` assigns exactly one status from
{failed, error, skipped, passed}, in this exact priority: a *truthy*
`failure` child → `failed`; else a *truthy* `error` child → `error`; else
a `skipped` marker present (even with no content) → `skipped`; else
`passed`.  A `failure`/`error` child whose parsed value is the empty
string — an empty element such as `<failure/>` — is falsy in the
JavaScript condition `if (testcase.failure)` and is treated as absent. -/
theorem c1_status_priority (sn : String) (tc : TestcaseNode) :
    ((parseTestCase sn tc).1.status = statusOf tc) ∧
    (statusOf tc = .failed ↔ jsTruthyChild tc.failure = true) ∧
    (statusOf tc = .error ↔
      (jsTruthyChild tc.failure = false ∧ jsTruthyChild tc.error = true)) ∧
    (statusOf tc = .skipped ↔
      (jsTruthyChild tc.failure = false ∧ jsTruthyChild tc.error = false ∧
       tc.skipped.isSome = true)) ∧
    (statusOf tc = .passed ↔
      (jsTruthyChild tc.failure = false ∧ jsTruthyChild tc.error = false ∧
       tc.skipped = none)) := by
  refine ⟨parseTestCase_status sn tc, ?_, ?_, ?_, ?_⟩ <;>
    · unfold statusOf
      by_cases h1 : jsTruthyChild tc.failure <;>
        by_cases h2 : jsTruthyChild tc.error <;>
          cases h3 : tc.skipped <;> simp [h1, h2, h3]

/-- C1 counterexample to the claim as stated: a test case node whose
`failure` child exists but parses to the empty string (an empty
`<failure/>` element) is assigned status `passed`, not `failed`. -/
theorem c1_counterexample :
    ((⟨some "t", none, none, some (.text ""), none, none⟩ : TestcaseNode).failure.isSome
       = true) ∧
    (parseTestCase "S" ⟨some "t", none, none, some (.text ""), none, none⟩).1.status
       = .passed ∧
    (parseTestCase "S" ⟨some "t", none, none, some (.text ""), none, none⟩).1.status
       ≠ .failed := by
  decide

/-- C1 witness: at a concrete node with a non-empty `failure` child the
priority theorem applies and yields status `failed`; a node with an empty
`skipped` marker yields `skipped`. -/
theorem c1_witness :
    (parseTestCase "S" ⟨some "t", none, none, some (.text "boom"), none, none⟩).1.status
      = statusOf ⟨some "t", none, none, some (.text "boom"), none, none⟩ ∧
    statusOf (⟨some "t", none, none, some (.text "boom"), none, none⟩ : TestcaseNode)
      = .failed ∧
    statusOf (⟨some "t", none, none, none, none, some (.text "")⟩ : TestcaseNode)
      = .skipped := by
  refine ⟨(c1_status_priority "S" _).1,
    ((c1_status_priority "S" _).2.1).mpr (by decide),
    ((c1_status_priority "S" _).2.2.2.1).mpr (by decide)⟩

/-- C2 (amended): per suite, `parseJUnitXml` reads `name` with default
`"Unknown Suite"`, integer-parses `tests`/`failures`/`errors`/`skipped`
and float-parses `time`, defaulting to `0` when the attribute is missing
(or empty); parsing is total and never throws.  An *unparseable* non-empty
attribute (no leading digits) yields JavaScript `NaN`, not `0` — see the
counterexample. -/
theorem c2_suite_defaults (s : SuiteNode) :
    ((s.tests = none ∨ s.tests = some "") → (parseSuite s).1.tests = .num 0 1) ∧
    ((s.failures = none ∨ s.failures = some "") → (parseSuite s).1.failures = .num 0 1) ∧
    ((s.errors = none ∨ s.errors = some "") → (parseSuite s).1.errors = .num 0 1) ∧
    ((s.skipped = none ∨ s.skipped = some "") → (parseSuite s).1.skipped = .num 0 1) ∧
    ((s.time = none ∨ s.time = some "") → (parseSuite s).1.time = .num 0 1) ∧
    (parseSuite s).1.name = jsOr s.name "Unknown Suite" := by
  have hz : parseIntJs "0" = JsNum.num 0 1 := by decide
  have hzf : parseFloatJs "0" = JsNum.num 0 1 := by decide
  refine ⟨?_, ?_, ?_, ?_, ?_, rfl⟩
  · rintro (h | h) <;> simp [parseSuite, h, jsOr, hz]
  · rintro (h | h) <;> simp [parseSuite, h, jsOr, hz]
  · rintro (h | h) <;> simp [parseSuite, h, jsOr, hz]
  · rintro (h | h) <;> simp [parseSuite, h, jsOr, hz]
  · rintro (h | h) <;> simp [parseSuite, h, jsOr, hzf]

/-- C2 witness: in a mixed document — `tests="5"` present while
`failures` and `time` are absent — each missing attribute independently
defaults to `0` while the present one parses to its value. -/
theorem c2_witness :
    (parseSuite ⟨some "A", some "5", none, none, none, none, none, []⟩).1.failures
      = .num 0 1 ∧
    (parseSuite ⟨some "A", some "5", none, none, none, none, none, []⟩).1.time
      = .num 0 1 ∧
    (parseSuite ⟨some "A", some "5", none, none, none, none, none, []⟩).1.tests
      = .num 5 1 ∧
    (parseSuite ⟨some "A", some "5", none, none, none, none, none, []⟩).1.name = "A" := by
  have h := c2_suite_defaults ⟨some "A", some "5", none, none, none, none, none, []⟩
  exact ⟨h.2.1 (Or.inl rfl), h.2.2.2.2.1 (Or.inl rfl), by decide, by decide⟩

/-- C2 counterexample to the claim as stated: a suite whose `tests`
attribute is the unparseable string `"abc"` gets `tests = NaN`
(`parseInt("abc", 10)`), not `0`. -/
theorem c2_counterexample :
    (parseSuite ⟨none, some "abc", none, none, none, none, none, []⟩).1.tests = .nan ∧
    (parseSuite ⟨none, some "abc", none, none, none, none, none, []⟩).1.tests
      ≠ .num 0 1 := by
  decide

/-- C3: for every JUnit document, each `summary.total…` field equals the
sum of the corresponding per-suite field over all suites; the summary is
invariant under permutation of the suite list; and a suite with zero test
cases still contributes its attribute-sourced counts (its parsed fields
come from the suite attributes alone). -/
theorem c3_summary_sums (ts ts' : List SuiteNode) (hperm : ts.Perm ts') :
    ((parseJUnitXml ts).summary.totalTests
       = jsum ((parseJUnitXml ts).suites.map (·.tests))) ∧
    ((parseJUnitXml ts).summary.totalFailures
       = jsum ((parseJUnitXml ts).suites.map (·.failures))) ∧
    ((parseJUnitXml ts).summary.totalErrors
       = jsum ((parseJUnitXml ts).suites.map (·.errors))) ∧
    ((parseJUnitXml ts).summary.totalSkipped
       = jsum ((parseJUnitXml ts).suites.map (·.skipped))) ∧
    ((parseJUnitXml ts).summary.totalTime
       = jsum ((parseJUnitXml ts).suites.map (·.time))) ∧
    ((parseJUnitXml ts').summary = (parseJUnitXml ts).summary) ∧
    (∀ s : SuiteNode, s.testcase = [] →
      (parseSuite s).1.testCases = [] ∧
      (parseSuite s).1.tests = parseIntJs (jsOr s.tests "0") ∧
      (parseSuite s).1.failures = parseIntJs (jsOr s.failures "0") ∧
      (parseSuite s).1.errors = parseIntJs (jsOr s.errors "0") ∧
      (parseSuite s).1.skipped = parseIntJs (jsOr s.skipped "0") ∧
      (parseSuite s).1.time = parseFloatJs (jsOr s.time "0")) := by
  refine ⟨?_, ?_, ?_, ?_, ?_, ?_, ?_⟩
  · rw [parseJUnitXml_summary, parseJUnitXml_suites, jsum, List.map_map,
      ← foldl_jadd_fuse]
    rfl
  · rw [parseJUnitXml_summary, parseJUnitXml_suites, jsum, List.map_map,
      ← foldl_jadd_fuse]
    rfl
  · rw [parseJUnitXml_summary, parseJUnitXml_suites, jsum, List.map_map,
      ← foldl_jadd_fuse]
    rfl
  · rw [parseJUnitXml_summary, parseJUnitXml_suites, jsum, List.map_map,
      ← foldl_jadd_fuse]
    rfl
  · rw [parseJUnitXml_summary, parseJUnitXml_suites, jsum, List.map_map,
      ← foldl_jadd_fuse]
    rfl
  · rw [parseJUnitXml_summary, parseJUnitXml_summary]
    simp only [foldl_jadd_perm _ _ hperm.symm]
  · intro s hs
    refine ⟨?_, rfl, rfl, rfl, rfl, rfl⟩
    simp [parseSuite, hs]

/-- C3 witness: the summary invariants hold at a concrete two-suite
document and its reversal (spec Example 2: suite A tests=5, failures=1;
suite B tests=3, failures=0 → totals 8 and 1). -/
theorem c3_witness :
    ([⟨some "A", some "5", some "1", none, none, none, none, []⟩,
      ⟨some "B", some "3", some "0", none, none, none, none, []⟩] : List SuiteNode).Perm
      [⟨some "B", some "3", some "0", none, none, none, none, []⟩,
       ⟨some "A", some "5", some "1", none, none, none, none, []⟩] ∧
    (parseJUnitXml [⟨some "B", some "3", some "0", none, none, none, none, []⟩,
       ⟨some "A", some "5", some "1", none, none, none, none, []⟩]).summary
      = (parseJUnitXml [⟨some "A", some "5", some "1", none, none, none, none, []⟩,
       ⟨some "B", some "3", some "0", none, none, none, none, []⟩]).summary ∧
    (parseJUnitXml [⟨some "A", some "5", some "1", none, none, none, none, []⟩,
       ⟨some "B", some "3", some "0", none, none, none, none, []⟩]).summary.totalTests
      = .num 8 1 := by
  refine ⟨by decide, (c3_summary_sums _ _ (by decide)).2.2.2.2.2.1, by decide⟩

/-- C4: for every JUnit document, `failedTests` is exactly the list of
cases with status `failed` or `error`, each mapped to its
`{suiteName, testName, className, message, type, details}` entry, in
suite-then-case order of the source document. -/
theorem c4_failed_tests (ts : List SuiteNode) :
    (parseJUnitXml ts).failedTests =
      (ts.map fun s =>
        (s.testcase.filter isFailedOrError).map
          (caseEntry (jsOr s.name "Unknown Suite"))).flatten := by
  rw [parseJUnitXml_failedTests]
  congr 1
  exact List.map_congr_left fun s _ => parseSuite_snd s

theorem mem_groupPipelines {g : PipelineGroup} {p : Pipeline} (hp : p ∈ groupPipelines g) :
    (∃ n, p = strPipeline g.name n) ∨ (∃ q, p = objPipeline g.name q) := by
  unfold groupPipelines at hp
  cases hef : effPipelines g with
  | none => rw [hef] at hp; simp at hp
  | some pf =>
    rw [hef] at hp
    by_cases hlen : pipelinesLen pf = 0
    · simp [hlen] at hp
    · cases pf with
      | strs names =>
        simp [hlen] at hp
        obtain ⟨n, _, rfl⟩ := hp
        exact Or.inl ⟨n, rfl⟩
      | objs ps =>
        simp [hlen] at hp
        obtain ⟨q, _, rfl⟩ := hp
        exact Or.inr ⟨q, rfl⟩

/-- C5: for every dashboard payload accepted by `listPipelines`, every
output pipeline arises from a bare name string or from an object entry;
its `pauseInfo` is `null` only when that source entry carried no pause
metadata (bare string, or object with `pause_info` absent); and whenever
`pause_info` is present — including `paused: false` — `pauseInfo` is
materialized with all three fields `paused`, `pausedBy`, `pauseReason`
translated from snake_case. -/
theorem c5_pause_info (d : DashboardResponse) (l : List Pipeline)
    (hl : listPipelines d = .ok l) (p : Pipeline) (hp : p ∈ l) :
    ((∃ gname n, p = strPipeline gname n) ∨ (∃ gname q, p = objPipeline gname q)) ∧
    (p.pauseInfo = none →
      (∃ gname n, p = strPipeline gname n) ∨
      (∃ gname q, q.pause_info = none ∧ p = objPipeline gname q)) ∧
    (∀ gname q pi, p = objPipeline gname q → q.pause_info = some pi →
      p.pauseInfo = some ⟨pi.paused, pi.paused_by, pi.pause_reason⟩) := by
  unfold listPipelines at hl
  cases hdg : dashGroups d with
  | none => rw [hdg] at hl; exact absurd hl (by simp)
  | some gs =>
    rw [hdg] at hl
    injection hl with hl'
    subst hl'
    have hp' : ∃ g ∈ gs, p ∈ groupPipelines g := by simpa using hp
    obtain ⟨g, _, hpg⟩ := hp'
    have hshape := mem_groupPipelines hpg
    refine ⟨?_, ?_, ?_⟩
    · rcases hshape with ⟨n, hn⟩ | ⟨q, hq⟩
      · exact Or.inl ⟨g.name, n, hn⟩
      · exact Or.inr ⟨g.name, q, hq⟩
    · intro hnone
      rcases hshape with ⟨n, hn⟩ | ⟨q, hq⟩
      · exact Or.inl ⟨g.name, n, hn⟩
      · refine Or.inr ⟨g.name, q, ?_, hq⟩
        cases hqi : q.pause_info with
        | none => rfl
        | some pi => subst hq; simp [objPipeline, hqi] at hnone
    · intro gname q pi hpq hqi
      subst hpq
      simp [objPipeline, hqi]

/-- C5 witness: a concrete payload whose single object entry carries
`pause_info` with `paused: false` still materializes all three
`pauseInfo` fields. -/
theorem c5_witness :
    listPipelines
        ⟨none, some [⟨"main", none,
          some (.objs [⟨"p1", false, some ⟨false, none, none⟩⟩])⟩]⟩
      = .ok [⟨"p1", "main", false, some ⟨false, none, none⟩⟩] ∧
    (⟨"p1", "main", false, some ⟨false, none, none⟩⟩ : Pipeline)
      ∈ [(⟨"p1", "main", false, some ⟨false, none, none⟩⟩ : Pipeline)] ∧
    (⟨"p1", "main", false, some ⟨false, none, none⟩⟩ : Pipeline).pauseInfo
      = some ⟨false, none, none⟩ := by
  refine ⟨rfl, by decide, ?_⟩
  exact (c5_pause_info
    ⟨none, some [⟨"main", none, some (.objs [⟨"p1", false, some ⟨false, none, none⟩⟩])⟩]⟩
    [⟨"p1", "main", false, some ⟨false, none, none⟩⟩] rfl
    ⟨"p1", "main", false, some ⟨false, none, none⟩⟩ (by decide)).2.2
    "main" ⟨"p1", false, some ⟨false, none, none⟩⟩ ⟨false, none, none⟩ rfl rfl

/-- C6: `listPipelines` fails — with the exact message
`"Invalid dashboard response: missing pipeline_groups field"` — precisely
when the payload exposes pipeline groups neither under `_embedded` nor as
the top-level `pipeline_groups` field; and a group whose pipelines
collection is absent or empty contributes zero pipelines rather than an
error. -/
theorem c6_missing_groups (d : DashboardResponse) :
    ((∃ msg, listPipelines d = .error msg) ↔
      (d.embedded_pipeline_groups = none ∧ d.pipeline_groups = none)) ∧
    (listPipelines d = .error "Invalid dashboard response: missing pipeline_groups field" ↔
      (d.embedded_pipeline_groups = none ∧ d.pipeline_groups = none)) ∧
    (∀ g : PipelineGroup,
      (effPipelines g = none ∨ ∃ pf, effPipelines g = some pf ∧ pipelinesLen pf = 0) →
      groupPipelines g = []) := by
  have hdg : dashGroups d = none ↔
      (d.embedded_pipeline_groups = none ∧ d.pipeline_groups = none) := by
    unfold dashGroups
    cases h : d.embedded_pipeline_groups <;> simp [h]
  refine ⟨?_, ?_, ?_⟩
  · rw [← hdg]
    unfold listPipelines
    cases h : dashGroups d <;> simp [h]
  · rw [← hdg]
    unfold listPipelines
    cases h : dashGroups d <;> simp [h]
  · intro g hg
    unfold groupPipelines
    rcases hg with h | ⟨pf, hpf, hlen⟩
    · rw [h]
    · rw [hpf]
      simp [hlen]

/-- C6 witness: a payload with groups in neither position fails with the
exact message, and a group with an empty embedded pipelines array
contributes zero pipelines. -/
theorem c6_witness :
    listPipelines ⟨none, none⟩
      = .error "Invalid dashboard response: missing pipeline_groups field" ∧
    groupPipelines ⟨"g1", some [], none⟩ = [] := by
  refine ⟨(c6_missing_groups ⟨none, none⟩).2.1.mpr ⟨rfl, rfl⟩, ?_⟩
  exact (c6_missing_groups ⟨none, none⟩).2.2 ⟨"g1", some [], none⟩
    (Or.inr ⟨.objs [], rfl, rfl⟩)

/-- C7: an upstream 404 on `getPipelineStatus("missing")` surfaces through
the tool boundary as `{error: true, code: "NOT_FOUND", message:
"Resource not found: pipelines/missing/status"}`; in general, every
upstream status ≥ 400 raises a `GocdApiError` whose envelope code is
401 → `UNAUTHORIZED`, 403 → `FORBIDDEN`, 404 → `NOT_FOUND`, and
`API_ERROR` otherwise. -/
theorem c7_error_mapping :
    (∀ resp : HttpResponse, resp.statusCode = 404 →
      ∃ e, requestClassify (getPipelineStatusPath "missing") resp = .error e ∧
        formatErrorResponse (.gocd e) =
          ⟨true, "NOT_FOUND", "Resource not found: pipelines/missing/status", none⟩) ∧
    (∀ (path : String) (resp : HttpResponse), 400 ≤ resp.statusCode →
      ∃ e, requestClassify path resp = .error e ∧
        e.statusCode = resp.statusCode ∧ e.endpoint = normalizePath path ∧
        (formatErrorResponse (.gocd e)).error = true ∧
        (formatErrorResponse (.gocd e)).code =
          (if resp.statusCode = 401 then "UNAUTHORIZED"
           else if resp.statusCode = 403 then "FORBIDDEN"
           else if resp.statusCode = 404 then "NOT_FOUND"
           else "API_ERROR")) := by
  have hpath : normalizePath (getPipelineStatusPath "missing")
      = "pipelines/missing/status" := by decide
  constructor
  · intro resp h
    refine ⟨⟨resp.statusCode, jsOr resp.statusMessage "Unknown error",
      normalizePath (getPipelineStatusPath "missing"), some (bodyToString resp.body)⟩,
      ?_, ?_⟩
    · unfold requestClassify
      rw [if_pos (by omega)]
    · simp [formatErrorResponse, h, hpath]
  · intro path resp h
    refine ⟨⟨resp.statusCode, jsOr resp.statusMessage "Unknown error",
      normalizePath path, some (bodyToString resp.body)⟩, ?_, rfl, rfl, ?_, ?_⟩
    · unfold requestClassify
      rw [if_pos h]
    · simp only [formatErrorResponse]
      split_ifs <;> rfl
    · simp only [formatErrorResponse]
      split_ifs <;> rfl

/-- C7 witness: the concrete 404 response at the `getPipelineStatus`
path for pipeline `"missing"` produces exactly the claimed envelope. -/
theorem c7_witness :
    ∃ e, requestClassify (getPipelineStatusPath "missing") ⟨404, some "Not Found", .vnull⟩
        = .error e ∧
      formatErrorResponse (.gocd e) =
        ⟨true, "NOT_FOUND", "Resource not found: pipelines/missing/status", none⟩ :=
  c7_error_mapping.1 ⟨404, some "Not Found", .vnull⟩ rfl

/-- C8: in `analyze_job_failures`, each failed JUnit pattern attempt is
swallowed and the next pattern tried; when every pattern fails
`testFailures` stays unset with no error raised; the console-log fetch is
attempted independently of the pattern loop; and when both sources are
missing the result is exactly `{summary: "No test reports or logs found.
Job may be running or no artifacts published."}` with both optional
fields absent. -/
theorem c8_analyze_failures (fetchJUnit : String → Except String JUnitTestResults)
    (consoleFetch : Except String String)
    (hj : ∀ pat ∈ junitPatterns, ∃ e, fetchJUnit pat = .error e)
    (hc : ∃ e, consoleFetch = .error e) :
    analyzeJobFailures fetchJUnit consoleFetch =
      ⟨none, none,
       "No test reports or logs found. Job may be running or no artifacts published."⟩ ∧
    (∀ f c, (analyzeJobFailures f c).testFailures = firstSuccess (junitPatterns.map f)) ∧
    (∀ (f : String → Except String JUnitTestResults) (c : Except String String),
      (analyzeJobFailures f c).consoleErrors =
        match c with | .ok s => some s | .error _ => none) ∧
    (∀ (e : String) (rest : List (Except String JUnitTestResults)),
      firstSuccess (.error e :: rest) = firstSuccess rest) := by
  have hnone : ∀ l : List (Except String JUnitTestResults),
      (∀ x ∈ l, ∃ e, x = .error e) → firstSuccess l = none := by
    intro l
    induction l with
    | nil => intro _; rfl
    | cons x rest ih =>
      intro h
      obtain ⟨e, rfl⟩ := h x (by simp)
      exact ih fun y hy => h y (by simp [hy])
  have h1 : firstSuccess (junitPatterns.map fetchJUnit) = none := by
    refine hnone _ ?_
    intro x hx
    rw [List.mem_map] at hx
    obtain ⟨pat, hpat, rfl⟩ := hx
    exact hj pat hpat
  obtain ⟨e, hce⟩ := hc
  refine ⟨?_, ?_, ?_, fun _ _ => rfl⟩
  · simp [analyzeJobFailures, h1, hce, jsTruthyStr]
  · intro f c
    cases c <;> simp [analyzeJobFailures, apply_ite FailureAnalysis.testFailures]
  · intro f c
    cases c <;> simp [analyzeJobFailures, apply_ite FailureAnalysis.consoleErrors]

/-- C8 witness: with every pattern fetch failing and the console fetch
failing, the aggregator returns the no-artifacts summary with both
optional fields absent. -/
theorem c8_witness :
    (∀ pat ∈ junitPatterns,
      ∃ e, (fun _ => (Except.error "404" : Except String JUnitTestResults)) pat
        = .error e) ∧
    analyzeJobFailures (fun _ => .error "404") (.error "no log") =
      ⟨none, none,
       "No test reports or logs found. Job may be running or no artifacts published."⟩ :=
  ⟨fun _ _ => ⟨"404", rfl⟩,
   (c8_analyze_failures (fun _ => .error "404") (.error "no log")
     (fun _ _ => ⟨"404", rfl⟩) ⟨"no log", rfl⟩).1⟩

/-- C9: `pausePipeline` with an empty-string reason sends no body at all,
identically to the reason being omitted; a body is constructed exactly
when the reason is a non-empty string, and then it is
`{pause_cause: reason}`. -/
theorem c9_pause_body (name : String) :
    (pausePipelineRequest name (some "") = pausePipelineRequest name none) ∧
    ((pausePipelineRequest name (some "")).body = none) ∧
    ((pausePipelineRequest name none).body = none) ∧
    (∀ reason : Option String,
      (pausePipelineRequest name reason).body ≠ none ↔
        ∃ r, reason = some r ∧ r ≠ "") ∧
    (∀ r : String, r ≠ "" →
      (pausePipelineRequest name (some r)).body = some [("pause_cause", r)]) := by
  refine ⟨rfl, rfl, rfl, ?_, ?_⟩
  · intro reason
    cases reason with
    | none => simp [pausePipelineRequest, jsTruthyStr]
    | some s =>
      by_cases hs : s = ""
      · subst hs
        simp [pausePipelineRequest, jsTruthyStr]
      · simp [pausePipelineRequest, jsTruthyStr, hs]
  · intro r hr
    simp [pausePipelineRequest, jsTruthyStr, hr]

/-- C9 witness: a non-empty reason yields the `pause_cause` body, and the
empty-string reason coincides with the omitted reason. -/
theorem c9_witness :
    ("maintenance" : String) ≠ "" ∧
    (pausePipelineRequest "p" (some "maintenance")).body
      = some [("pause_cause", "maintenance")] ∧
    pausePipelineRequest "p" (some "") = pausePipelineRequest "p" none :=
  ⟨by decide, (c9_pause_body "p").2.2.2.2 "maintenance" (by decide),
   (c9_pause_body "p").1⟩

/-- C10: the `X-GoCD-Confirm: true` header is attached exactly when the
request path contains `/cancel`, `/unpause` or `/pause` as a substring —
including the non-destructive GET `getPipelineStatus` for a pipeline
literally named `"pause"`, whose path `/pipelines/pause/status` matches
the substring test. -/
theorem c10_confirm_header (token apiVersion path : String) :
    (("X-GoCD-Confirm", "true") ∈ requestHeaders token path apiVersion ↔
      needsConfirmHeader path = true) ∧
    (needsConfirmHeader path =
      (jsIncludes path "/cancel" || jsIncludes path "/unpause" ||
       jsIncludes path "/pause")) ∧
    ((getPipelineStatusRequest "pause").method = "GET") ∧
    ((getPipelineStatusRequest "pause").path = "/pipelines/pause/status") ∧
    (needsConfirmHeader (getPipelineStatusRequest "pause").path = true) := by
  refine ⟨?_, rfl, rfl, by decide, by decide⟩
  by_cases h : needsConfirmHeader path <;> simp [requestHeaders, h]

/-- C10 witness: at the concrete path of `getPipelineStatus("pause")` the
header is attached even though the method is GET. -/
theorem c10_witness :
    (getPipelineStatusRequest "pause").method = "GET" ∧
    needsConfirmHeader (getPipelineStatusRequest "pause").path = true ∧
    ("X-GoCD-Confirm", "true")
      ∈ requestHeaders "tok" (getPipelineStatusRequest "pause").path "v1" := by
  refine ⟨(c10_confirm_header "tok" "v1" (getPipelineStatusRequest "pause").path).2.2.1,
    (c10_confirm_header "tok" "v1" (getPipelineStatusRequest "pause").path).2.2.2.2, ?_⟩
  exact (c10_confirm_header "tok" "v1" (getPipelineStatusRequest "pause").path).1.mpr
    (by decide)

end GocdMcp
